import Mathlib

/-!
# Verification of the MoviePilot runtime-hosts plugin

Shallow embedding of the two plugin variants in this repository,
`github_tmdb_runtime_hosts/__init__.py` (variant 1) and
`plugins.v2/tmdb_runtime_hosts/__init__.py` (variant 2), together with
proofs about the hosts-parsing, merge, resolution-interception and
refresh-pipeline logic.

Strings are processed on `List Char`, mirroring the Python string
operations the source uses (`str.strip`, `str.split`, `str.splitlines`,
`str.lower`, `str.startswith`, substring test `in`).
-/

namespace RuntimeHosts

/-- Characters treated as whitespace by Python `str.strip()` / `str.split()`
(ASCII subset; the source documents are ASCII hosts files). -/
def pyIsSpace (c : Char) : Bool :=
  c = ' ' || c = '\t' || c = '\n' || c = '\r' || c = '\x0b' || c = '\x0c'

/-- Python `str.strip()` on a character list: drop leading and trailing
whitespace. -/
def pyStripL (l : List Char) : List Char :=
  ((l.dropWhile pyIsSpace).reverse.dropWhile pyIsSpace).reverse

/-- Helper for `pySplitWsL`: accumulate the current token (reversed) while
scanning. -/
def splitWsGo : List Char → List Char → List (List Char)
  | [], acc => if acc.isEmpty then [] else [acc.reverse]
  | c :: rest, acc =>
    if pyIsSpace c then
      if acc.isEmpty then splitWsGo rest [] else acc.reverse :: splitWsGo rest []
    else splitWsGo rest (c :: acc)

/-- Python `str.split()` with no argument: split on whitespace runs,
producing no empty tokens. -/
def pySplitWsL (l : List Char) : List (List Char) :=
  splitWsGo l []

/-- Helper for `pySplitCharL`. -/
def splitCharGo (sep : Char) : List Char → List Char → List (List Char)
  | [], acc => [acc.reverse]
  | c :: rest, acc =>
    if c = sep then acc.reverse :: splitCharGo sep rest []
    else splitCharGo sep rest (c :: acc)

/-- Python `str.split(sep)` with a one-character separator: split at every
occurrence, keeping empty pieces. -/
def pySplitCharL (sep : Char) (l : List Char) : List (List Char) :=
  splitCharGo sep l []

/-- Python `str.splitlines()` restricted to the line breaks that occur in
hosts documents: splits at `\r\n`, `\r` and `\n`, with no trailing empty
line for a trailing break. -/
def pySplitlinesL : List Char → List Char → List (List Char)
  | [], acc => if acc.isEmpty then [] else [acc.reverse]
  | '\r' :: '\n' :: rest, acc => acc.reverse :: pySplitlinesL rest []
  | '\r' :: rest, acc => acc.reverse :: pySplitlinesL rest []
  | '\n' :: rest, acc => acc.reverse :: pySplitlinesL rest []
  | c :: rest, acc => pySplitlinesL rest (c :: acc)

/-- Python `str.lower()` (ASCII). -/
def pyToLowerL (l : List Char) : List Char :=
  l.map Char.toLower

/-- Python `str.lower()` on a `String`. -/
def pyToLower (s : String) : String :=
  String.mk (pyToLowerL s.toList)

/-! ## Model of CPython `ipaddress.ip_address` syntax acceptance

`_is_valid_ip` in both variants delegates to the CPython standard library
(`ipaddress.ip_address(addr)` succeeding); the definitions below translate
that library's parsing algorithm (`IPv4Address._ip_int_from_string`,
`IPv6Address` including its scope-id handling). -/

/-- Decimal value of an ASCII digit string. -/
def digitsToNat (l : List Char) : Nat :=
  l.foldl (fun n c => n * 10 + (c.toNat - 48)) 0

/-- CPython `IPv4Address._parse_octet`: 1 to 3 ASCII digits, no leading
zero unless the octet is exactly "0", value at most 255. -/
def isValidOctet (l : List Char) : Bool :=
  !l.isEmpty && l.all Char.isDigit && l.length ≤ 3 &&
    (l = ['0'] || l.headD '0' ≠ '0') && digitsToNat l ≤ 255

/-- CPython `IPv4Address` syntax: exactly four dot-separated valid octets. -/
def isValidIPv4L (l : List Char) : Bool :=
  let octets := pySplitCharL '.' l
  octets.length = 4 && octets.all isValidOctet

/-- An ASCII hexadecimal digit. -/
def isHexDigit (c : Char) : Bool :=
  c.isDigit || ('a' ≤ c && c ≤ 'f') || ('A' ≤ c && c ≤ 'F')

/-- CPython `IPv6Address._parse_hextet`: 1 to 4 hex digits. -/
def isValidHextet (l : List Char) : Bool :=
  !l.isEmpty && l.length ≤ 4 && l.all isHexDigit

/-- If the last colon-separated part contains a dot, CPython parses it as an
embedded IPv4 address and replaces it with two hextets; a malformed embedded
address makes the whole literal invalid. -/
def expandEmbeddedV4 (parts : List (List Char)) : Option (List (List Char)) :=
  match parts.getLast? with
  | Option.none => Option.none
  | Option.some last =>
    if last.contains '.' then
      if isValidIPv4L last then Option.some (parts.dropLast ++ [['0'], ['0']])
      else Option.none
    else Option.some parts

/-- Indices `i` with `0 < i < parts.length - 1` whose part is empty: the
positions where a `::` gap may sit (CPython's `skip_index` scan). -/
def interiorEmptyIndices (parts : List (List Char)) : List Nat :=
  (List.range parts.length).filter fun i =>
    decide (1 ≤ i) && decide (i + 1 < parts.length) && (parts.getD i []).isEmpty

/-- CPython `IPv6Address._ip_int_from_string` after colon-splitting and
embedded-IPv4 expansion: checks the `::` structure and each hextet. -/
def isValidIPv6Parts (parts : List (List Char)) : Bool :=
  if parts.length > 9 then false
  else
    match interiorEmptyIndices parts with
    | [] => parts.length = 8 && parts.all isValidHextet
    | [skip] =>
      let n := parts.length
      let hi0 := skip
      let lo0 := n - skip - 1
      if (parts.headD []).isEmpty && hi0 ≠ 1 then false
      else if (parts.getLastD []).isEmpty && lo0 ≠ 1 then false
      else
        let hi := if (parts.headD []).isEmpty then hi0 - 1 else hi0
        let lo := if (parts.getLastD []).isEmpty then lo0 - 1 else lo0
        if 8 ≤ hi + lo then false
        else (parts.take hi).all isValidHextet &&
          ((parts.drop (n - lo)).all isValidHextet)
    | _ => false

/-- CPython `IPv6Address` syntax without a scope id: at least three
colon-separated parts, optional embedded IPv4 in the last part, at most one
`::` gap, all hextets valid. -/
def isValidIPv6CoreL (l : List Char) : Bool :=
  if l.isEmpty then false
  else
    let parts := pySplitCharL ':' l
    if parts.length < 3 then false
    else
      match expandEmbeddedV4 parts with
      | Option.none => false
      | Option.some expanded => isValidIPv6Parts expanded

/-- CPython `IPv6Address` including scope-id handling: an optional `%scope`
suffix where the scope is non-empty and contains no further `%`. -/
def isValidIPv6L (l : List Char) : Bool :=
  match pySplitCharL '%' l with
  | [addr] => isValidIPv6CoreL addr
  | [addr, scope] => !scope.isEmpty && isValidIPv6CoreL addr
  | _ => false

/-- `_is_valid_ip` from the source: `ipaddress.ip_address(addr)` succeeds,
i.e. the string parses as IPv4 or as IPv6. -/
def isValidIP (s : String) : Bool :=
  isValidIPv4L s.toList || isValidIPv6L s.toList

/-! ## The host table

`Dict[str, Tuple[str, socket.AddressFamily]]` in the source. A Python dict
is embedded as an insertion-ordered association list with unique keys;
`dictSet` models `d[k] = v` (overwrite in place, else append), `dictGet`
models `d.get(k)`, `dictUpdate` models `d.update(d2)` / `\x7b**d, **d2\x7d`. -/

/-- `socket.AF_INET` / `socket.AF_INET6`. -/
inductive AddressFamily where
  | inet
  | inet6
deriving DecidableEq, Repr

/-- One table value: `(ip, address_family)`. -/
abbrev HostEntry := String × AddressFamily

/-- The hosts dict: hostname key to `(ip, family)` value. -/
abbrev HostTable := List (String × HostEntry)

/-- Python `d[k] = v`: overwrite the value at an existing key in place,
otherwise append the new pair at the end. -/
def dictSet : HostTable → String → HostEntry → HostTable
  | [], k, v => [(k, v)]
  | (k₀, v₀) :: rest, k, v =>
    if k₀ = k then (k, v) :: rest else (k₀, v₀) :: dictSet rest k v

/-- Python `d.get(k)`. -/
def dictGet : HostTable → String → Option HostEntry
  | [], _ => Option.none
  | (k₀, v₀) :: rest, k => if k₀ = k then Option.some v₀ else dictGet rest k

/-- The value of `d` after Python `d.update(d2)`, equally the value of
`\x7b**d, **d2\x7d`: write every pair of `d2`, in order, into `d`. -/
def dictUpdate (d d₂ : HostTable) : HostTable :=
  d₂.foldl (fun acc kv => dictSet acc kv.1 kv.2) d

/-! ## Parsing a hosts document (`_load_hosts` body) -/

/-- One iteration of the parse loop in `_load_hosts`: strip the line, skip
blanks and `#`-comments, split on whitespace, require two tokens, take the
first as the address and the lowercased last as the hostname, validate the
address, infer the family from the presence of a colon, store the entry. -/
def processLine (hosts : HostTable) (rawLine : String) : HostTable :=
  let line := pyStripL rawLine.toList
  if !line.isEmpty && !(line.headD ' ' = '#') then
    let parts := pySplitWsL line
    if parts.length ≥ 2 then
      let ip := String.mk (parts.headD [])
      let host := String.mk (pyToLowerL (parts.getLastD []))
      if isValidIP ip then
        let af : AddressFamily :=
          if ip.toList.contains ':' then AddressFamily.inet6 else AddressFamily.inet
        dictSet hosts host (ip, af)
      else hosts
    else hosts
  else hosts

/-- The parse loop of `_load_hosts` over `resp.text.splitlines()`, starting
from the empty dict. -/
def parseHosts (text : String) : HostTable :=
  (pySplitlinesL text.toList []).map String.mk |>.foldl processLine []

/-! ## Fetching (`_load_hosts` including the network call)

The network is an input of the embedding: a GET either fails (any transport
error, timeout, or the non-2xx status that `raise_for_status` turns into an
exception — all caught by the `except` clause) or succeeds with a body. -/

/-- Outcome of `requests.get(url)` followed by `raise_for_status()`. -/
inductive FetchResult where
  | failure (cause : String)
  | success (body : String)
deriving DecidableEq, Repr

/-- Observable log events of the pipeline (the `logger.error` calls the
claims mention). -/
inductive LogEv where
  | fetchError (url cause : String)
  | primaryEmpty
  | probeFailed
  | mergedCount (n : Nat)
deriving DecidableEq, Repr

/-- `_load_hosts(url)`: on fetch failure, log the URL and cause and return
`\x7b\x7d`; on success, return the parsed body. Totality of this definition
embeds the source's catch-all `except` clause: no exception escapes. -/
def loadHosts (url : String) (r : FetchResult) : HostTable × List LogEv :=
  match r with
  | FetchResult.failure cause => ([], [LogEv.fetchError url cause])
  | FetchResult.success body => (parseHosts body, [])

/-! ## The resolution interceptor (`_patch` / `_patch_dns`)

`socket.getaddrinfo` holds a function value; over the plugin's lifetime it
is only ever the platform original or a closure produced by the patch
function over some table, so function values are embedded as `FnVal`.
The behaviour of a patched closure is `patchedGetaddrinfo`. -/

/-- A value the process resolution entry point can hold. -/
inductive FnVal where
  | original
  | patched (hosts : HostTable)
deriving DecidableEq, Repr

/-- Extra arguments of `getaddrinfo` (`*a, **kw` in the source): the
family, socket-type, protocol and flags hints, forwarded untouched to the
original resolver on a miss. -/
structure Hints where
  family : Nat
  sockType : Nat
  proto : Nat
  flags : Nat
deriving DecidableEq, Repr

/-- One `getaddrinfo` result tuple
`(family, type, proto, canonname, sockaddr)`. -/
structure AddrInfo where
  family : AddressFamily
  sockType : Nat
  proto : Nat
  canonname : String
  sockaddr : String × Nat
deriving DecidableEq, Repr

/-- `socket.SOCK_STREAM`. -/
def SOCK_STREAM : Nat := 1

/-- The type of a resolution entry point. -/
abbrev ResolverFn := String → Nat → Hints → List AddrInfo

/-- The closure installed by `_patch` / `_patch_dns`: look the lowercased
hostname up in the captured table; on a hit return the single synthesized
tuple; on a miss delegate to `_ORIGINAL_GETADDRINFO` with all arguments
unchanged. -/
def patchedGetaddrinfo (hosts : HostTable) (orig : ResolverFn)
    (host : String) (port : Nat) (hints : Hints) : List AddrInfo :=
  match dictGet hosts (pyToLower host) with
  | Option.some (ip, family) => [⟨family, SOCK_STREAM, 0, "", (ip, port)⟩]
  | Option.none => orig host port hints

/-! ## The refresh pipeline (`_update_all`) and plugin lifecycle

Mutable process state (`socket.getaddrinfo`, the module global
`_ORIGINAL_GETADDRINFO`, the module global `_RUNTIME_HOSTS`, and the
scheduler's `runtime_hosts_daily` job) is passed explicitly. The network
responses of one run are the run's environment. -/

/-- The mutable process state the plugin touches. -/
structure SysState where
  getaddrinfo : FnVal
  originalGai : FnVal
  runtimeHosts : HostTable
  hasJob : Bool
deriving DecidableEq, Repr

/-- State at module load: both resolver slots hold the platform original,
the cache dict is empty, no job is registered. -/
def initState : SysState :=
  ⟨FnVal.original, FnVal.original, [], false⟩

/-- Which remote source a run fetched. -/
inductive Source where
  | primary
  | secondaryV4
  | secondaryV6
deriving DecidableEq, Repr

/-- Network responses available to one `_update_all` run. -/
structure Env where
  primary : FetchResult
  probeOk : Bool
  secondaryV4 : FetchResult
  secondaryV6 : FetchResult
deriving Repr

/-- Result of one `_update_all` run: the state afterwards, the sources
actually fetched (in order), and the log events emitted. -/
structure RunResult where
  state : SysState
  fetched : List Source
  logs : List LogEv
deriving Repr

/-- Primary source URL of variant 1. -/
def urlGithub520 : String := "https://raw.hellogithub.com/hosts"

/-- Secondary IPv4 source URL of variant 1. -/
def urlTmdbV4 : String :=
  "https://raw.githubusercontent.com/cnwikee/CheckTMDB/refs/heads/main/Tmdb_host_ipv4"

/-- Secondary IPv6 source URL of variant 1. -/
def urlTmdbV6 : String :=
  "https://raw.githubusercontent.com/cnwikee/CheckTMDB/refs/heads/main/Tmdb_host_ipv6"

/-- `_update_all` of variant 1 (`github_tmdb_runtime_hosts`): fetch the
primary source; abort if empty; patch with it; probe; abort if the probe
fails (keeping the primary patch); fetch and merge the two secondary
sources over the primary (`dict.update`); patch with the merged table.
`_RUNTIME_HOSTS` is never written. -/
def updateAllV1 (env : Env) (s : SysState) : RunResult :=
  let github := (loadHosts urlGithub520 env.primary).1
  let log₁ := (loadHosts urlGithub520 env.primary).2
  if github.isEmpty then
    ⟨s, [Source.primary], log₁ ++ [LogEv.primaryEmpty]⟩
  else
    let s₁ := { s with getaddrinfo := FnVal.patched github }
    if !env.probeOk then
      ⟨s₁, [Source.primary], log₁ ++ [LogEv.probeFailed]⟩
    else
      let tmdb := dictUpdate (loadHosts urlTmdbV4 env.secondaryV4).1
        (loadHosts urlTmdbV6 env.secondaryV6).1
      let merged := dictUpdate github tmdb
      ⟨{ s₁ with getaddrinfo := FnVal.patched merged },
        [Source.primary, Source.secondaryV4, Source.secondaryV6],
        log₁ ++ (loadHosts urlTmdbV4 env.secondaryV4).2 ++
          (loadHosts urlTmdbV6 env.secondaryV6).2 ++
          [LogEv.mergedCount merged.length]⟩

/-- Default primary source URL of variant 2 (`DEFAULT_CONFIG.github_url`). -/
def urlGithubV2 : String := "https://raw.hellogithub.com/hosts"

/-- Default secondary IPv4 URL of variant 2. -/
def urlTmdbV4V2 : String :=
  "https://raw.githubusercontent.com/cnwikee/CheckTMDB/main/Tmdb_host_ipv4"

/-- Default secondary IPv6 URL of variant 2. -/
def urlTmdbV6V2 : String :=
  "https://raw.githubusercontent.com/cnwikee/CheckTMDB/main/Tmdb_host_ipv6"

/-- `_update_all` of variant 2 (`plugins.v2/tmdb_runtime_hosts`): the same
pipeline, except that the merged table is built as
`\x7b**github_hosts, **tmdb_hosts\x7d` and, on full success only,
assigned to the module global `_RUNTIME_HOSTS`. -/
def updateAllV2 (env : Env) (s : SysState) : RunResult :=
  let github := (loadHosts urlGithubV2 env.primary).1
  let log₁ := (loadHosts urlGithubV2 env.primary).2
  if github.isEmpty then
    ⟨s, [Source.primary], log₁ ++ [LogEv.primaryEmpty]⟩
  else
    let s₁ := { s with getaddrinfo := FnVal.patched github }
    if !env.probeOk then
      ⟨s₁, [Source.primary], log₁ ++ [LogEv.probeFailed]⟩
    else
      let tmdb := dictUpdate (loadHosts urlTmdbV4V2 env.secondaryV4).1
        (loadHosts urlTmdbV6V2 env.secondaryV6).1
      let combined := dictUpdate github tmdb
      ⟨{ s₁ with getaddrinfo := FnVal.patched combined, runtimeHosts := combined },
        [Source.primary, Source.secondaryV4, Source.secondaryV6],
        log₁ ++ (loadHosts urlTmdbV4V2 env.secondaryV4).2 ++
          (loadHosts urlTmdbV6V2 env.secondaryV6).2 ++
          [LogEv.mergedCount combined.length]⟩

/-- Variant 1 `_enable`: run the pipeline, then register the daily job
(`_register_job` first removes any old job, then adds the new one). -/
def enableV1 (env : Env) (s : SysState) : SysState :=
  let r := updateAllV1 env s
  { r.state with hasJob := true }

/-- Variant 1 `_disable`: `stop_service` removes the job inside
`try/except pass` (no error when absent), `socket.getaddrinfo` is set back
to the module-level constant `_ORIGINAL_GETADDRINFO` (never reassigned in
variant 1), and `_RUNTIME_HOSTS.clear()` empties the cache. -/
def disableV1 (s : SysState) : SysState :=
  { s with hasJob := false, getaddrinfo := s.originalGai, runtimeHosts := [] }

/-- Variant 2 `_enable`: run the pipeline first, then reassign the global
`_ORIGINAL_GETADDRINFO = socket.getaddrinfo` — capturing whatever the
pipeline just installed. -/
def enableV2 (env : Env) (s : SysState) : SysState :=
  let r := updateAllV2 env s
  { r.state with originalGai := r.state.getaddrinfo }

/-- Variant 2 `_disable`: restore `socket.getaddrinfo` from the global
`_ORIGINAL_GETADDRINFO` and clear `_RUNTIME_HOSTS`. It does not touch the
scheduler. -/
def disableV2 (s : SysState) : SysState :=
  { s with getaddrinfo := s.originalGai, runtimeHosts := [] }

/-- Variant 2 `_register_job`: always remove the old job, then add the new
one only when the plugin is enabled. `remove_job` is modelled from the
spec: deregistering is a no-op, not an error, when no job is registered. -/
def registerJobV2 (enabled : Bool) (s : SysState) : SysState :=
  { s with hasJob := enabled }

/-- Variant 2 disable path of `init_plugin` (config `enable = False`):
`_disable()` followed by `_register_job()`. -/
def disableFlowV2 (s : SysState) : SysState :=
  registerJobV2 false (disableV2 s)

/-! ## The merge step in isolation (for the merge claims)

Variant 1 merges with `github_hosts.update(tmdb_hosts)` — a statement that
mutates the base dict in place and returns `None`; variant 2 builds the
fresh dict `\x7b**github_hosts, **tmdb_hosts\x7d`. Mutation is embedded by
returning the post-call values of the variables involved. -/

/-- Variant 1 merge `base.update(overlay)`:
the pair holds (value of `base` after the call, value of `overlay` after
the call). The merged table is read back from the mutated `base`. -/
def mergeV1 (base overlay : HostTable) : HostTable × HostTable :=
  (dictUpdate base overlay, overlay)

/-- Variant 2 merge `\x7b**base, **overlay\x7d`: the triple holds
(the fresh result, value of `base` after, value of `overlay` after). -/
def mergeV2 (base overlay : HostTable) : HostTable × HostTable × HostTable :=
  (dictUpdate base overlay, base, overlay)

/-- The merged table a fully successful variant-1 run installs:
primary overlaid by the merged secondaries. -/
def combinedV1 (env : Env) : HostTable :=
  dictUpdate (loadHosts urlGithub520 env.primary).1
    (dictUpdate (loadHosts urlTmdbV4 env.secondaryV4).1
      (loadHosts urlTmdbV6 env.secondaryV6).1)

/-- A concrete stand-in for the platform resolver, used to evaluate the
interceptor at concrete requests. -/
def origA : ResolverFn := fun _ _ _ => []

/-- The merged table a fully successful variant-2 run installs and caches:
primary overlaid by the merged secondaries. -/
def combinedV2 (env : Env) : HostTable :=
  dictUpdate (loadHosts urlGithubV2 env.primary).1
    (dictUpdate (loadHosts urlTmdbV4V2 env.secondaryV4).1
      (loadHosts urlTmdbV6V2 env.secondaryV6).1)

/-- A run environment with a valid primary document, a passing probe, and
failing secondary fetches; used to evaluate the enable/disable cycle. -/
def envLeak : Env :=
  ⟨FetchResult.success "1.2.3.4 github.com", true,
    FetchResult.failure "timeout", FetchResult.failure "timeout"⟩

/-! ## Dictionary lemmas -/

theorem dictGet_dictSet (t : HostTable) (k : String) (v : HostEntry) (k₁ : String) :
    dictGet (dictSet t k v) k₁ =
      if k = k₁ then Option.some v else dictGet t k₁ := by
  induction t with
  | nil => simp [dictSet, dictGet]
  | cons p rest ih =>
    obtain ⟨k₀, v₀⟩ := p
    simp only [dictSet]
    by_cases h₀ : k₀ = k
    · subst h₀
      rw [if_pos rfl]
      by_cases h₁ : k₀ = k₁ <;> simp [dictGet, h₁]
    · rw [if_neg h₀]
      by_cases h₁ : k₀ = k₁
      · have hk : ¬ k = k₁ := fun hh => h₀ (h₁.trans hh.symm)
        simp [dictGet, h₁, hk]
      · simp [dictGet, h₁, ih]

theorem dictGet_eq_none_iff (t : HostTable) (k : String) :
    dictGet t k = Option.none ↔ k ∉ t.map Prod.fst := by
  induction t with
  | nil => simp [dictGet]
  | cons p rest ih =>
    obtain ⟨k₀, v₀⟩ := p
    by_cases h : k₀ = k
    · subst h
      simp [dictGet]
    · have hne : ¬ k = k₀ := fun hh => h hh.symm
      simp only [dictGet, if_neg h, List.map_cons, List.mem_cons, not_or, ih]
      exact ⟨fun hm => ⟨hne, hm⟩, fun hm => hm.2⟩

theorem dictGet_dictUpdate_of_none (d₂ : HostTable) :
    ∀ (d : HostTable) (k : String), dictGet d₂ k = Option.none →
      dictGet (dictUpdate d d₂) k = dictGet d k := by
  induction d₂ with
  | nil => intro d k _; rfl
  | cons p rest ih =>
    intro d k h
    obtain ⟨k₀, v₀⟩ := p
    have h₀ : ¬ k₀ = k := by
      intro hh
      simp [dictGet, hh] at h
    have h₁ : dictGet rest k = Option.none := by
      simpa [dictGet, h₀] using h
    show dictGet (dictUpdate (dictSet d k₀ v₀) rest) k = dictGet d k
    rw [ih _ _ h₁, dictGet_dictSet]
    simp [h₀]

theorem dictGet_dictUpdate_of_some (d₂ : HostTable) :
    ∀ (d : HostTable) (k : String) (v : HostEntry),
      (d₂.map Prod.fst).Nodup → dictGet d₂ k = Option.some v →
      dictGet (dictUpdate d d₂) k = Option.some v := by
  induction d₂ with
  | nil => intro d k v _ h; simp [dictGet] at h
  | cons p rest ih =>
    intro d k v hnd h
    obtain ⟨k₀, v₀⟩ := p
    rw [List.map_cons, List.nodup_cons] at hnd
    have hnd₁ : k₀ ∉ rest.map Prod.fst := hnd.1
    have hnd₂ : (rest.map Prod.fst).Nodup := hnd.2
    by_cases h₀ : k₀ = k
    · subst h₀
      have hv : v₀ = v := by simpa [dictGet] using h
      subst hv
      have hrest : dictGet rest k₀ = Option.none :=
        (dictGet_eq_none_iff rest k₀).mpr hnd₁
      show dictGet (dictUpdate (dictSet d k₀ v₀) rest) k₀ = Option.some v₀
      rw [dictGet_dictUpdate_of_none _ _ _ hrest, dictGet_dictSet]
      simp
    · have h₁ : dictGet rest k = Option.some v := by
        simpa [dictGet, h₀] using h
      show dictGet (dictUpdate (dictSet d k₀ v₀) rest) k = Option.some v
      exact ih _ _ _ hnd₂ h₁

/-! ## Shape lemmas for the three branches of the pipeline -/

theorem loadHosts_fst (u u' : String) (r : FetchResult) :
    (loadHosts u r).1 = (loadHosts u' r).1 := by
  cases r <;> rfl

theorem updateAllV1_empty (env : Env) (s : SysState)
    (h : ((loadHosts urlGithub520 env.primary).1).isEmpty = true) :
    updateAllV1 env s =
      ⟨s, [Source.primary],
        (loadHosts urlGithub520 env.primary).2 ++ [LogEv.primaryEmpty]⟩ := by
  simp [updateAllV1, h]

theorem updateAllV1_probe_fail (env : Env) (s : SysState)
    (h₁ : ((loadHosts urlGithub520 env.primary).1).isEmpty = false)
    (h₂ : env.probeOk = false) :
    updateAllV1 env s =
      ⟨{ s with getaddrinfo := FnVal.patched (loadHosts urlGithub520 env.primary).1 },
        [Source.primary],
        (loadHosts urlGithub520 env.primary).2 ++ [LogEv.probeFailed]⟩ := by
  simp [updateAllV1, h₁, h₂]

theorem updateAllV1_success (env : Env) (s : SysState)
    (h₁ : ((loadHosts urlGithub520 env.primary).1).isEmpty = false)
    (h₂ : env.probeOk = true) :
    updateAllV1 env s =
      ⟨{ s with getaddrinfo := FnVal.patched (combinedV1 env) },
        [Source.primary, Source.secondaryV4, Source.secondaryV6],
        (loadHosts urlGithub520 env.primary).2 ++
          (loadHosts urlTmdbV4 env.secondaryV4).2 ++
          (loadHosts urlTmdbV6 env.secondaryV6).2 ++
          [LogEv.mergedCount (combinedV1 env).length]⟩ := by
  simp [updateAllV1, combinedV1, h₁, h₂]

theorem updateAllV2_empty (env : Env) (s : SysState)
    (h : ((loadHosts urlGithubV2 env.primary).1).isEmpty = true) :
    updateAllV2 env s =
      ⟨s, [Source.primary],
        (loadHosts urlGithubV2 env.primary).2 ++ [LogEv.primaryEmpty]⟩ := by
  simp [updateAllV2, h]

theorem updateAllV2_probe_fail (env : Env) (s : SysState)
    (h₁ : ((loadHosts urlGithubV2 env.primary).1).isEmpty = false)
    (h₂ : env.probeOk = false) :
    updateAllV2 env s =
      ⟨{ s with getaddrinfo := FnVal.patched (loadHosts urlGithubV2 env.primary).1 },
        [Source.primary],
        (loadHosts urlGithubV2 env.primary).2 ++ [LogEv.probeFailed]⟩ := by
  simp [updateAllV2, h₁, h₂]

theorem updateAllV2_success (env : Env) (s : SysState)
    (h₁ : ((loadHosts urlGithubV2 env.primary).1).isEmpty = false)
    (h₂ : env.probeOk = true) :
    updateAllV2 env s =
      ⟨{ s with
          getaddrinfo := FnVal.patched (combinedV2 env),
          runtimeHosts := combinedV2 env },
        [Source.primary, Source.secondaryV4, Source.secondaryV6],
        (loadHosts urlGithubV2 env.primary).2 ++
          (loadHosts urlTmdbV4V2 env.secondaryV4).2 ++
          (loadHosts urlTmdbV6V2 env.secondaryV6).2 ++
          [LogEv.mergedCount (combinedV2 env).length]⟩ := by
  simp [updateAllV2, combinedV2, h₁, h₂]

theorem updateAllV1_frame (env : Env) (s : SysState) :
    (updateAllV1 env s).state.originalGai = s.originalGai ∧
    (updateAllV1 env s).state.runtimeHosts = s.runtimeHosts ∧
    (updateAllV1 env s).state.hasJob = s.hasJob := by
  cases h₁ : ((loadHosts urlGithub520 env.primary).1).isEmpty with
  | true => rw [updateAllV1_empty env s h₁]; exact ⟨rfl, rfl, rfl⟩
  | false =>
    cases h₂ : env.probeOk with
    | false => rw [updateAllV1_probe_fail env s h₁ h₂]; exact ⟨rfl, rfl, rfl⟩
    | true => rw [updateAllV1_success env s h₁ h₂]; exact ⟨rfl, rfl, rfl⟩

theorem updateAllV2_frame (env : Env) (s : SysState) :
    (updateAllV2 env s).state.originalGai = s.originalGai ∧
    (updateAllV2 env s).state.hasJob = s.hasJob := by
  cases h₁ : ((loadHosts urlGithubV2 env.primary).1).isEmpty with
  | true => rw [updateAllV2_empty env s h₁]; exact ⟨rfl, rfl⟩
  | false =>
    cases h₂ : env.probeOk with
    | false => rw [updateAllV2_probe_fail env s h₁ h₂]; exact ⟨rfl, rfl⟩
    | true => rw [updateAllV2_success env s h₁ h₂]; exact ⟨rfl, rfl⟩

/-! ## The claims -/

/-- **C1**: in every run where the connectivity probe fails after the
primary table has been activated, no secondary source is fetched, and the
run ends in the state whose installed resolver consults exactly the
primary table — the primary activation is kept, not rolled back (both
variants). -/
theorem gate_honored (env : Env) (s : SysState)
    (hne : ((loadHosts urlGithub520 env.primary).1).isEmpty = false)
    (hp : env.probeOk = false) :
    (updateAllV1 env s).fetched = [Source.primary] ∧
    (updateAllV1 env s).state =
      { s with getaddrinfo := FnVal.patched (loadHosts urlGithub520 env.primary).1 } ∧
    (updateAllV2 env s).fetched = [Source.primary] ∧
    (updateAllV2 env s).state =
      { s with getaddrinfo := FnVal.patched (loadHosts urlGithubV2 env.primary).1 } := by
  have hne₂ : ((loadHosts urlGithubV2 env.primary).1).isEmpty = false := by
    rw [loadHosts_fst urlGithubV2 urlGithub520]; exact hne
  rw [updateAllV1_probe_fail env s hne hp, updateAllV2_probe_fail env s hne₂ hp]
  exact ⟨rfl, rfl, rfl, rfl⟩

/-- Witness for C1 at a concrete probe-failing environment. -/
theorem gate_honored_witness :
    ((loadHosts urlGithub520 (FetchResult.success "1.2.3.4 github.com")).1).isEmpty
      = false ∧
    (updateAllV1
        ⟨FetchResult.success "1.2.3.4 github.com", false,
          FetchResult.failure "x", FetchResult.failure "y"⟩ initState).state =
      { initState with
          getaddrinfo :=
            FnVal.patched [("github.com", ("1.2.3.4", AddressFamily.inet))] } := by
  have h := gate_honored
    ⟨FetchResult.success "1.2.3.4 github.com", false,
      FetchResult.failure "x", FetchResult.failure "y"⟩ initState (by decide) rfl
  refine ⟨by decide, ?_⟩
  rw [h.2.1]
  decide

/-- **C3** (counterexample to the claim as stated): variant 1 merges with
`base.update(overlay)`, which mutates the base dict in place — after the
merge the base variable no longer holds its old table, so the merge is not
pure. -/
theorem merge_mutates_base_v1 :
    (mergeV1 [("github.com", ("1.2.3.4", AddressFamily.inet))]
        [("api.themoviedb.org", ("9.9.9.9", AddressFamily.inet))]).1 ≠
      [("github.com", ("1.2.3.4", AddressFamily.inet))] := by
  decide

/-- **C3** (amended): merge computes the right-biased union in both
variants — the overlay entry wins on a shared key and keys unique to
either side keep their entries; variant 2's merge is pure, while variant
1's is an in-place update of the base (base afterwards holds the union;
the overlay is unmutated in both variants). -/
theorem merge_right_bias (base overlay : HostTable)
    (hnd : (overlay.map Prod.fst).Nodup) :
    (∀ k v, dictGet overlay k = Option.some v →
      dictGet (mergeV2 base overlay).1 k = Option.some v) ∧
    (∀ k, dictGet overlay k = Option.none →
      dictGet (mergeV2 base overlay).1 k = dictGet base k) ∧
    (mergeV2 base overlay).2.1 = base ∧
    (mergeV2 base overlay).2.2 = overlay ∧
    (mergeV1 base overlay).1 = (mergeV2 base overlay).1 ∧
    (mergeV1 base overlay).2 = overlay := by
  refine ⟨?_, ?_, rfl, rfl, rfl, rfl⟩
  · intro k v h
    exact dictGet_dictUpdate_of_some overlay base k v hnd h
  · intro k h
    exact dictGet_dictUpdate_of_none overlay base k h

/-- Witness for C3's amended claim: overlay wins on the shared key, the
key unique to the base keeps its entry. -/
theorem merge_right_bias_witness :
    ((([("github.com", ("5.6.7.8", AddressFamily.inet))] : HostTable).map
        Prod.fst).Nodup) ∧
    dictGet (mergeV2
        [("github.com", ("1.2.3.4", AddressFamily.inet)),
          ("x.org", ("2.2.2.2", AddressFamily.inet))]
        [("github.com", ("5.6.7.8", AddressFamily.inet))]).1 "github.com" =
      Option.some ("5.6.7.8", AddressFamily.inet) ∧
    dictGet (mergeV2
        [("github.com", ("1.2.3.4", AddressFamily.inet)),
          ("x.org", ("2.2.2.2", AddressFamily.inet))]
        [("github.com", ("5.6.7.8", AddressFamily.inet))]).1 "x.org" =
      Option.some ("2.2.2.2", AddressFamily.inet) := by
  refine ⟨by decide, ?_, ?_⟩
  · exact (merge_right_bias
      [("github.com", ("1.2.3.4", AddressFamily.inet)),
        ("x.org", ("2.2.2.2", AddressFamily.inet))]
      [("github.com", ("5.6.7.8", AddressFamily.inet))] (by decide)).1
      "github.com" ("5.6.7.8", AddressFamily.inet) (by decide)
  · have h := (merge_right_bias
      [("github.com", ("1.2.3.4", AddressFamily.inet)),
        ("x.org", ("2.2.2.2", AddressFamily.inet))]
      [("github.com", ("5.6.7.8", AddressFamily.inet))] (by decide)).2.1
      "x.org" (by decide)
    rw [h]
    decide

/-- **C5**: a run whose primary fetch yields an empty table aborts before
any activation — the resolution entry point, the cache and the whole
process state are unchanged, the failure is logged, and the primary source
is fetched exactly once with no retry in the run (both variants). -/
theorem empty_primary_aborts (env : Env) (s : SysState)
    (h : ((loadHosts urlGithub520 env.primary).1).isEmpty = true) :
    (updateAllV1 env s).state = s ∧
    (updateAllV1 env s).fetched = [Source.primary] ∧
    LogEv.primaryEmpty ∈ (updateAllV1 env s).logs ∧
    (updateAllV2 env s).state = s ∧
    (updateAllV2 env s).fetched = [Source.primary] ∧
    LogEv.primaryEmpty ∈ (updateAllV2 env s).logs := by
  have h₂ : ((loadHosts urlGithubV2 env.primary).1).isEmpty = true := by
    rw [loadHosts_fst urlGithubV2 urlGithub520]; exact h
  rw [updateAllV1_empty env s h, updateAllV2_empty env s h₂]
  refine ⟨rfl, rfl, ?_, rfl, rfl, ?_⟩ <;> simp

/-- Witness for C5 at a concrete failing primary fetch. -/
theorem empty_primary_aborts_witness :
    ((loadHosts urlGithub520 (FetchResult.failure "timeout")).1).isEmpty = true ∧
    (updateAllV1
        ⟨FetchResult.failure "timeout", true,
          FetchResult.success "1.2.3.4 a", FetchResult.failure "y"⟩
        initState).state = initState := by
  exact ⟨by decide,
    (empty_primary_aborts
      ⟨FetchResult.failure "timeout", true,
        FetchResult.success "1.2.3.4 a", FetchResult.failure "y"⟩
      initState (by decide)).1⟩

/-- **C6** (the code contradicts the claim): variant 2's `_enable` saves
`_ORIGINAL_GETADDRINFO = socket.getaddrinfo` only after `_update_all` has
already installed the patched closure, so `_disable` restores the wrapper,
not the function captured at first module load; variant 1, whose capture
really happens once at module load, restores exactly. -/
theorem disable_leaks_wrapper_v2 :
    (disableV2 (enableV2 envLeak initState)).getaddrinfo =
      FnVal.patched [("github.com", ("1.2.3.4", AddressFamily.inet))] ∧
    (disableV2 (enableV2 envLeak initState)).getaddrinfo ≠ FnVal.original ∧
    (enableV2 envLeak initState).originalGai ≠ FnVal.original ∧
    (disableV1 (enableV1 envLeak initState)).getaddrinfo = FnVal.original := by
  exact ⟨by decide, by decide, by decide, by decide⟩

/-- **C7**: the fetch operation never lets an exception reach its caller
(the embedding is a total function): on any failure it returns the empty
table and logs a fetch error carrying the URL and cause; on success it
returns exactly the parse of the body. -/
theorem fetch_never_raises (url cause body : String) :
    loadHosts url (FetchResult.failure cause) =
      ([], [LogEv.fetchError url cause]) ∧
    loadHosts url (FetchResult.success body) = (parseHosts body, []) :=
  ⟨rfl, rfl⟩

/-- **C8**: disable is idempotent — a second disable reproduces the state
of the first exactly; after a disable the job is deregistered (with no
error when none was present), the resolver holds the saved original again
and the override cache is empty (variant 1 `_disable`; variant 2 disable
path of `init_plugin`). -/
theorem disable_idempotent (s : SysState) :
    disableV1 (disableV1 s) = disableV1 s ∧
    (disableV1 s).hasJob = false ∧
    (disableV1 s).runtimeHosts = [] ∧
    (disableV1 s).getaddrinfo = s.originalGai ∧
    disableFlowV2 (disableFlowV2 s) = disableFlowV2 s ∧
    (disableFlowV2 s).hasJob = false ∧
    (disableFlowV2 s).runtimeHosts = [] ∧
    (disableFlowV2 s).getaddrinfo = s.originalGai :=
  ⟨rfl, rfl, rfl, rfl, rfl, rfl, rfl, rfl⟩

/-- **C9**: on a hit the patched resolver returns exactly one tuple
`(stored family, SOCK_STREAM, 0, "", (stored address, port))`, whatever
family, socket-type or protocol hints the caller passed. -/
theorem patched_result_shape (hosts : HostTable) (orig : ResolverFn)
    (host : String) (port : Nat) (hints hints' : Hints)
    (ip : String) (fam : AddressFamily)
    (h : dictGet hosts (pyToLower host) = Option.some (ip, fam)) :
    patchedGetaddrinfo hosts orig host port hints =
      [⟨fam, SOCK_STREAM, 0, "", (ip, port)⟩] ∧
    patchedGetaddrinfo hosts orig host port hints =
      patchedGetaddrinfo hosts orig host port hints' := by
  constructor <;> simp [patchedGetaddrinfo, h]

/-- Witness for C9: a caller asking for a datagram socket (hints
`(AF_INET, SOCK_DGRAM, UDP, 0)` as numbers) still gets the single
SOCK_STREAM entry. -/
theorem patched_result_shape_witness :
    dictGet [("api.themoviedb.org", ("104.244.42.1", AddressFamily.inet))]
        (pyToLower "api.themoviedb.org") =
      Option.some ("104.244.42.1", AddressFamily.inet) ∧
    patchedGetaddrinfo
        [("api.themoviedb.org", ("104.244.42.1", AddressFamily.inet))]
        origA "api.themoviedb.org" 443 ⟨2, 2, 17, 0⟩ =
      [⟨AddressFamily.inet, SOCK_STREAM, 0, "", ("104.244.42.1", 443)⟩] := by
  refine ⟨by decide, ?_⟩
  exact (patched_result_shape
    [("api.themoviedb.org", ("104.244.42.1", AddressFamily.inet))]
    origA "api.themoviedb.org" 443 ⟨2, 2, 17, 0⟩ ⟨0, 0, 0, 0⟩
    "104.244.42.1" AddressFamily.inet (by decide)).1

/-- **C4**: for a hostname absent (case-insensitively, the table keys
being lowercase) from the installed table, the patched resolver returns
the original resolver's result unmodified; for a present hostname it
returns the tuple built from the stored address and family, independently
of the original resolver. In variant 1 no pipeline or lifecycle operation
ever rewrites the captured original, so the delegate really is the
module-load capture. -/
theorem lookup_fallback (hosts : HostTable) (orig orig' : ResolverFn)
    (host : String) (port : Nat) (hints : Hints) (env : Env) (s : SysState)
    (hkeys : ∀ p ∈ hosts, pyToLower p.1 = p.1) :
    ((∀ p ∈ hosts, pyToLower p.1 ≠ pyToLower host) →
      patchedGetaddrinfo hosts orig host port hints = orig host port hints) ∧
    (∀ ip fam, dictGet hosts (pyToLower host) = Option.some (ip, fam) →
      patchedGetaddrinfo hosts orig host port hints =
        [⟨fam, SOCK_STREAM, 0, "", (ip, port)⟩] ∧
      patchedGetaddrinfo hosts orig host port hints =
        patchedGetaddrinfo hosts orig' host port hints) ∧
    (updateAllV1 env s).state.originalGai = s.originalGai ∧
    (disableV1 s).originalGai = s.originalGai ∧
    (enableV1 env s).originalGai = s.originalGai := by
  refine ⟨?_, ?_, (updateAllV1_frame env s).1, rfl, (updateAllV1_frame env s).1⟩
  · intro habs
    have hnone : dictGet hosts (pyToLower host) = Option.none := by
      rw [dictGet_eq_none_iff]
      intro hmem
      rcases List.mem_map.mp hmem with ⟨p, hp, hfst⟩
      exact habs p hp ((hkeys p hp).trans hfst)
    simp [patchedGetaddrinfo, hnone]
  · intro ip fam hsome
    constructor <;> simp [patchedGetaddrinfo, hsome]

/-- Witness for C4: a miss delegates to the original resolver, a hit (in
any letter case) returns the stored entry. -/
theorem lookup_fallback_witness :
    (∀ p ∈ ([("github.com", ("140.82.112.3", AddressFamily.inet))] : HostTable),
      pyToLower p.1 = p.1) ∧
    patchedGetaddrinfo [("github.com", ("140.82.112.3", AddressFamily.inet))]
        origA "api.github.com" 443 ⟨0, 0, 0, 0⟩ =
      origA "api.github.com" 443 ⟨0, 0, 0, 0⟩ ∧
    patchedGetaddrinfo [("github.com", ("140.82.112.3", AddressFamily.inet))]
        origA "GitHub.COM" 443 ⟨0, 0, 0, 0⟩ =
      [⟨AddressFamily.inet, SOCK_STREAM, 0, "", ("140.82.112.3", 443)⟩] := by
  refine ⟨by decide, ?_, ?_⟩
  · exact (lookup_fallback
      [("github.com", ("140.82.112.3", AddressFamily.inet))] origA origA
      "api.github.com" 443 ⟨0, 0, 0, 0⟩ envLeak initState (by decide)).1
      (by decide)
  · exact ((lookup_fallback
      [("github.com", ("140.82.112.3", AddressFamily.inet))] origA origA
      "GitHub.COM" 443 ⟨0, 0, 0, 0⟩ envLeak initState (by decide)).2.1
      "140.82.112.3" AddressFamily.inet (by decide)).1

/-- **C10**: the module cache `_RUNTIME_HOSTS` is not the table the
installed resolver consults. Variant 1's pipeline never writes it; variant
2 assigns it only on full pipeline success; on a probe-failure run the
resolver ends patched with the fresh primary table while the cache is
unchanged, so cache and effective table can diverge. -/
theorem runtime_hosts_cache_spec (env : Env) (s : SysState) :
    (updateAllV1 env s).state.runtimeHosts = s.runtimeHosts ∧
    (((loadHosts urlGithubV2 env.primary).1).isEmpty = true →
      (updateAllV2 env s).state.runtimeHosts = s.runtimeHosts) ∧
    (((loadHosts urlGithubV2 env.primary).1).isEmpty = false →
      env.probeOk = false →
      (updateAllV2 env s).state.runtimeHosts = s.runtimeHosts ∧
      (updateAllV2 env s).state.getaddrinfo =
        FnVal.patched (loadHosts urlGithubV2 env.primary).1) ∧
    (((loadHosts urlGithubV2 env.primary).1).isEmpty = false →
      env.probeOk = true →
      (updateAllV2 env s).state.runtimeHosts = combinedV2 env) := by
  refine ⟨(updateAllV1_frame env s).2.1, ?_, ?_, ?_⟩
  · intro h₁
    rw [updateAllV2_empty env s h₁]
  · intro h₁ h₂
    rw [updateAllV2_probe_fail env s h₁ h₂]
    exact ⟨rfl, rfl⟩
  · intro h₁ h₂
    rw [updateAllV2_success env s h₁ h₂]

/-- Witness for C10: a probe-failure run of variant 2 leaves the cache
empty while the resolver consults the fresh primary table — the two
diverge. -/
theorem runtime_hosts_cache_spec_witness :
    ((loadHosts urlGithubV2 (FetchResult.success "1.2.3.4 github.com")).1).isEmpty
      = false ∧
    (updateAllV2
        ⟨FetchResult.success "1.2.3.4 github.com", false,
          FetchResult.failure "x", FetchResult.failure "y"⟩
        initState).state.runtimeHosts = [] ∧
    (updateAllV2
        ⟨FetchResult.success "1.2.3.4 github.com", false,
          FetchResult.failure "x", FetchResult.failure "y"⟩
        initState).state.getaddrinfo =
      FnVal.patched [("github.com", ("1.2.3.4", AddressFamily.inet))] ∧
    (updateAllV2
        ⟨FetchResult.success "1.2.3.4 github.com", false,
          FetchResult.failure "x", FetchResult.failure "y"⟩
        initState).state.runtimeHosts ≠
      [("github.com", ("1.2.3.4", AddressFamily.inet))] := by
  have h := (runtime_hosts_cache_spec
    ⟨FetchResult.success "1.2.3.4 github.com", false,
      FetchResult.failure "x", FetchResult.failure "y"⟩ initState).2.2.1
    (by decide) rfl
  refine ⟨by decide, h.1, ?_, ?_⟩
  · rw [h.2]; decide
  · rw [h.1]; decide

/-- **C2**: parse is the total fold of the line step over the document's
lines (so it never raises, even when no line yields an entry); a blank
line, a line whose first non-whitespace character is the comment marker,
a line with fewer than two whitespace tokens, and a line whose first token
is not a valid IP literal each produce no entry; a remaining line produces
exactly the entry keyed by the lowercased last token, whose address is the
first token and whose family is IPv6 exactly when that address contains a
colon. -/
theorem parse_line_spec (t : HostTable) (line doc : String) :
    (parseHosts doc =
      ((pySplitlinesL doc.toList []).map String.mk).foldl processLine []) ∧
    (pyStripL line.toList = [] → processLine t line = t) ∧
    ((pyStripL line.toList).headD ' ' = '#' → processLine t line = t) ∧
    ((pySplitWsL (pyStripL line.toList)).length < 2 → processLine t line = t) ∧
    (∀ ip rest, pySplitWsL (pyStripL line.toList) = ip :: rest →
      rest ≠ [] →
      (pyStripL line.toList).headD ' ' ≠ '#' →
      isValidIP (String.mk ip) = true →
      processLine t line =
        dictSet t (String.mk (pyToLowerL ((ip :: rest).getLastD [])))
          (String.mk ip,
            if (String.mk ip).toList.contains ':' then AddressFamily.inet6
            else AddressFamily.inet)) ∧
    (∀ ip rest, pySplitWsL (pyStripL line.toList) = ip :: rest →
      isValidIP (String.mk ip) = false → processLine t line = t) := by
  refine ⟨rfl, ?_, ?_, ?_, ?_, ?_⟩
  · intro h
    simp [processLine, show pyStripL line.data = [] from h]
  · intro h
    have h₂ : (pyStripL line.data).head?.getD ' ' = '#' := by
      simpa using h
    simp [processLine, h₂]
  · intro h
    simp only [processLine]
    split
    · split
      · next hge => exact absurd hge (by omega)
      · rfl
    · rfl
  · intro ip rest hsplit hrest hhash hvalid
    have hne : ¬ pyStripL line.data = [] := by
      intro hh
      rw [show pyStripL line.toList = pyStripL line.data from rfl, hh] at hsplit
      simp [pySplitWsL, splitWsGo] at hsplit
    have hhash₂ : ¬ (pyStripL line.data).head?.getD ' ' = '#' := by
      simpa using hhash
    have hlen : 1 ≤ rest.length := List.length_pos.mpr hrest
    simp only [processLine, hsplit]
    simp [hne, hhash₂, hlen, hvalid]
  · intro ip rest hsplit hinvalid
    simp only [processLine, hsplit]
    split
    · split
      · simp [hinvalid]
      · rfl
    · rfl

/-- Witness for C2: a comment line yields no entry; a well-formed line
yields the lowercased-host entry with IPv4 family. -/
theorem parse_line_spec_witness :
    processLine [] "  # comment line" = [] ∧
    processLine [] "1.2.3.4 GitHub.COM" =
      [("github.com", ("1.2.3.4", AddressFamily.inet))] := by
  refine ⟨?_, ?_⟩
  · exact (parse_line_spec [] "  # comment line" "").2.2.1 (by decide)
  · have h := (parse_line_spec [] "1.2.3.4 GitHub.COM" "").2.2.2.2.1
      "1.2.3.4".toList ["GitHub.COM".toList] (by decide) (by decide)
      (by decide) (by decide)
    rw [h]
    decide

end RuntimeHosts
